import Mathlib

/-
Verification of the aggregation and merge engine of the farm-climate-report
repository (src/src/services/aggregation/).

Shallow embedding conventions:
  - Calendar dates are integers (a day index; adding one day is `+ 1`).
  - Timestamps are integers counting seconds of KST local civil time;
    `timedelta(hours=72)` is `72 * 3600`.
  - Python floats are rationals (`Rat`); the claims under study only compare,
    copy and threshold these values.
  - Python `None` is `Option.none`; a `dict.get` returning an optional value
    is an `Option` field.
  - Python dicts keyed by date / timestamp (`{entry.date: entry for ...}`)
    are embedded as last-occurrence association lookups over the source list,
    matching dict-comprehension overwrite semantics.
-/

set_option maxRecDepth 4096

/- Crop enumeration: src/src/services/aggregation/models.py restricts the
`crop` field to the single literal "apple" (SUPPORTED_CROPS = ("apple",)). -/
inductive Crop where
  | apple
deriving DecidableEq

def cropStr : Crop → String
  | .apple => "apple"

/- AggregateProfile from models.py: region, crop, stage.  The pydantic
min_length=1 constraints on region/stage are not needed by any claim and are
not modelled. -/
structure AggregateProfile where
  region : String
  crop : Crop
  stage : String
deriving DecidableEq

/- AggregateRequest from models.py: profile plus the demo flag. -/
structure AggregateRequest where
  region : String
  crop : Crop
  stage : String
  demo : Bool := false
deriving DecidableEq

def profileOfRequest (payload : AggregateRequest) : AggregateProfile :=
  { region := payload.region, crop := payload.crop, stage := payload.stage }

/- ResolvedProfile from models.py. -/
structure ResolvedProfile where
  profile : AggregateProfile
  lat : Rat
  lon : Rat
  kma_grid : Option (Int × Int) := none
  kma_area_code : Option String := none
  npms_region_code : Option String := none

/- ClimateDaily from models.py: one calendar day of one source. -/
structure ClimateDaily where
  date : Int
  tmax_c : Option Rat := none
  tmin_c : Option Rat := none
  precip_mm : Option Rat := none
  wind_ms : Option Rat := none
  summary : Option String := none
  precip_probability_pct : Option Rat := none
  src : Option String := none
deriving DecidableEq

/- ClimateHourly from models.py. -/
structure ClimateHourly where
  ts : Int
  t_c : Option Rat := none
  rh_pct : Option Rat := none
  wind_ms : Option Rat := none
  gust_ms : Option Rat := none
  precip_mm : Option Rat := none
  swrad_wm2 : Option Rat := none
  src : Option String := none
deriving DecidableEq

/- WeatherWarning from models.py.  The `type` and `level` literal enums are
kept as strings; `from_`/`to` are timestamps (the aggregator would fail
pydantic validation on unparsable ones, a path no claim exercises, so raw
warning timestamps are taken as already parseable). -/
structure WeatherWarning where
  type : String
  level : String
  area : String
  from_ : Int
  to_ : Int
deriving DecidableEq

/- ClimateSection from models.py. -/
structure ClimateSection where
  horizon_days : Nat
  daily : List ClimateDaily
  hourly : List ClimateHourly
  warnings : List WeatherWarning
  provenance : List String
deriving DecidableEq

/- PestBulletin from models.py. -/
structure PestBulletin where
  pest : String
  risk : String
  since : Int
  summary : String
deriving DecidableEq

/-- Modelled from the spec: the `PestObservation` model is imported by
aggregator.py and exercised by the repository's tests, but its class
definition is missing from the models.py snapshot under src/.  Fields follow
the spec's data model: `{pest, metric, code: string; value: optional float;
area: string; unit: optional string}`. -/
structure PestObservation where
  pest : String
  metric : String
  code : String
  value : Option Rat := none
  area : String
  unit : Option String := none
deriving DecidableEq

/-- Modelled from the spec: `PestSection.observations` is written by
`_normalize_npms` and read by the tests (`data["pest"]["observations"]`), but
the field is missing from the models.py snapshot under src/; it is restored
here per the spec's pest section.  The remaining fields (crop, bulletins,
provenance) are as in models.py. -/
structure PestSection where
  crop : Crop
  bulletins : List PestBulletin
  observations : List PestObservation
  provenance : List String
deriving DecidableEq

/- SoftHints from models.py. -/
structure SoftHints where
  rain_run_max_days : Option Nat := none
  heat_hours_ge_33c : Option Nat := none
  wind_hours_ge_10ms : Option Nat := none
  wet_nights_count : Option Nat := none
  diurnal_range_max : Option Rat := none
  first_warning_type : Option String := none
deriving DecidableEq

/-- Modelled from the spec: the evidence-pack fields `text` and `pest_hints`
are passed by `AggregationService.aggregate` but missing from the models.py
snapshot under src/; they are restored here per the spec's EvidencePack
(`pest_hints: sequence<string>` and the pest-observation text block).  The
remaining fields are as in models.py. -/
structure AggregateEvidencePack where
  profile : AggregateProfile
  issued_at : Int
  climate : ClimateSection
  pest : PestSection
  text : String
  pest_hints : List String
  soft_hints : Option SoftHints := none

/- Python truthiness of an optional string: `None` and `""` are falsy. -/
def strTruthy : Option String → Bool
  | none => false
  | some s => !(s == "")

/- The `_NormalizedSource` container from aggregator.py. -/
structure NormalizedSource where
  issued_at : Option Int
  daily : List ClimateDaily
  hourly : List ClimateHourly
  warnings : List WeatherWarning
  provenance : Option String

/- Last-occurrence association lookup: embedding of building
`{entry.date: entry for entry in daily}` and calling `.get(day)` on it.
A dict comprehension keeps the last entry for a duplicated key, which is the
first match in the reversed list. -/
def dictGetDaily (l : List ClimateDaily) (day : Int) : Option ClimateDaily :=
  l.reverse.find? (fun e => e.date == day)

def dictGetHourly (l : List ClimateHourly) (t : Int) : Option ClimateHourly :=
  l.reverse.find? (fun e => e.ts == t)

/- AggregationService._determine_base_date (aggregator.py lines 138-143):
first entry of the open-meteo daily list if any, else first entry of the KMA
daily list, else today. -/
def determineBaseDate (openMeteoNorm kmaNorm : NormalizedSource) (today : Int) : Int :=
  match openMeteoNorm.daily with
  | e :: _ => e.date
  | [] =>
    match kmaNorm.daily with
    | e :: _ => e.date
    | [] => today

/- One iteration of the AggregationService._merge_daily loop (lines 346-363):
for a given day, the open-meteo entry (if any) is the base record; a KMA entry
for the same day only contributes `summary` (when the base's is falsy and the
KMA one truthy) and `precip_probability_pct` (when the base's is None and the
KMA one is not); a day known to KMA only is used as-is; a day in neither map
produces nothing. -/
def mergeDay (day : Int) (kmaDaily openMeteoDaily : List ClimateDaily) : Option ClimateDaily :=
  match dictGetDaily openMeteoDaily day, dictGetDaily kmaDaily day with
  | some omEntry, some kmaEntry =>
    some { omEntry with
      summary :=
        if strTruthy kmaEntry.summary && !strTruthy omEntry.summary then
          kmaEntry.summary
        else omEntry.summary,
      precip_probability_pct :=
        if kmaEntry.precip_probability_pct.isSome
            && omEntry.precip_probability_pct.isNone then
          kmaEntry.precip_probability_pct
        else omEntry.precip_probability_pct }
  | some omEntry, none => some omEntry
  | none, some kmaEntry => some kmaEntry
  | none, none => none

/- AggregationService._merge_daily (aggregator.py lines 336-366): an 11-day
horizon from base_date, day offsets 0..10. -/
def mergeDaily (baseDate : Int) (kmaDaily openMeteoDaily : List ClimateDaily) :
    List ClimateDaily :=
  (List.range 11).filterMap
    (fun offset : Nat => mergeDay (baseDate + (offset : Int)) kmaDaily openMeteoDaily)

/- AggregationService._merge_hourly (aggregator.py lines 368-390): sorted
deduplicated union of timestamps, cut off strictly below earliest + 72h
(the loop breaks at the first timestamp at or beyond the limit, which on the
ascending list is `takeWhile`; the minimum of the sorted list is its head),
preferring the KMA record at each timestamp. -/
def mergeHourly (kmaHourly openMeteoHourly : List ClimateHourly) : List ClimateHourly :=
  let keys := (kmaHourly.map (·.ts) ++ openMeteoHourly.map (·.ts)).dedup
  if keys.isEmpty then []
  else
    let tss := List.insertionSort (· ≤ ·) keys
    let start := tss.headD 0
    (tss.takeWhile (fun t => t < start + 72 * 3600)).filterMap
      (fun t => dictGetHourly kmaHourly t <|> dictGetHourly openMeteoHourly t)

/- AggregationService._build_climate_section (aggregator.py lines 145-171). -/
def buildClimateSection (baseDate : Int) (kmaNorm openMeteoNorm : NormalizedSource) :
    ClimateSection :=
  let daily :=
    if !kmaNorm.daily.isEmpty || !openMeteoNorm.daily.isEmpty then
      mergeDaily baseDate kmaNorm.daily openMeteoNorm.daily
    else []
  let hourly := mergeHourly kmaNorm.hourly openMeteoNorm.hourly
  let provenance :=
    (if strTruthy kmaNorm.provenance then [kmaNorm.provenance.getD ""] else [])
      ++ (if strTruthy openMeteoNorm.provenance then [openMeteoNorm.provenance.getD ""] else [])
  { horizon_days := if daily.isEmpty then 0 else daily.length - 1
    daily := daily
    hourly := hourly
    warnings := kmaNorm.warnings
    provenance := provenance }

/- AggregationService._select_issued_at (aggregator.py lines 173-177). -/
def selectIssuedAt (candidates : List (Option Int)) (now : Int) : Int :=
  match (candidates.filterMap id).max? with
  | some m => m
  | none => now

/- ProfileResolver (resolver.py): the fixed lookup table.  Coordinates are
exact decimal rationals (never inspected by any claim). -/
structure ResolverRecord where
  lat : Rat
  lon : Rat
  kma_grid : Option (Int × Int)
  kma_area_code : Option String
  npms_region_code : Option String

def resolverRecords : List ((String × String) × ResolverRecord) :=
  [ (("gimcheon-si", "tomato"),
      { lat := mkRat 36137 1000, lon := mkRat 128113 1000
        kma_grid := some (83, 97), kma_area_code := some "11G00701"
        npms_region_code := some "47280" }),
    (("hwaseong-si", "rice"),
      { lat := mkRat 37199 1000, lon := mkRat 126832 1000
        kma_grid := some (55, 123), kma_area_code := some "11B20601"
        npms_region_code := some "41280" }),
    (("jeju-si", "lettuce"),
      { lat := mkRat 33499 1000, lon := mkRat 126531 1000
        kma_grid := some (52, 38), kma_area_code := some "11G00201"
        npms_region_code := some "50110" }) ]

/- Dict lookup keyed by the (region, crop) pair; the conjuncts of the pair
equality are checked crop-first (conjunction order does not affect the
result of a key-equality test). -/
def lookupResolverRecord (region crop : String) : Option ((String × String) × ResolverRecord) :=
  resolverRecords.find? (fun kv => kv.1.2 == crop && kv.1.1 == region)

/- ProfileResolver.resolve (resolver.py lines 47-60): a pure lookup that
raises ValueError (modelled as `Except.error` carrying the message) when the
(region.lower(), crop) key is absent. -/
def resolve (profile : AggregateProfile) : Except String ResolvedProfile :=
  match lookupResolverRecord profile.region.toLower (cropStr profile.crop) with
  | none =>
    .error ("Unsupported region/crop combination: " ++ profile.region ++ " / "
      ++ cropStr profile.crop)
  | some kv =>
    .ok { profile := profile, lat := kv.2.lat, lon := kv.2.lon
          kma_grid := kv.2.kma_grid, kma_area_code := kv.2.kma_area_code
          npms_region_code := kv.2.npms_region_code }

/- Raw scalar field of an upstream payload as seen by the defensive float
coercions (`_coerce_float` in aggregator.py, `_to_float` in fetchers.py):
either absent/null, a number, or a string. -/
inductive RawScalar where
  | null
  | num (q : Rat)
  | str (s : String)
deriving DecidableEq

def digitVal (c : Char) : Option Nat :=
  if c.isDigit then some (c.toNat - 48) else none

def digitsToNat (cs : List Char) : Option Nat :=
  cs.foldl
    (fun acc c =>
      match acc, digitVal c with
      | some a, some d => some (a * 10 + d)
      | _, _ => none)
    (some 0)

/- Decimal parse modelling Python `float(str)` on plain decimal notation
(optional sign, digits, optional fractional part); other accepted forms
(exponents, inf/nan) fall to `none`, which no claim exercises. -/
def parseDecimal (s : String) : Option Rat :=
  let cs := s.trim.data
  let signed : Int × List Char :=
    match cs with
    | '-' :: rest => (-1, rest)
    | '+' :: rest => (1, rest)
    | _ => (1, cs)
  let body := signed.2
  let intDigits := body.takeWhile Char.isDigit
  let rest := body.dropWhile Char.isDigit
  match rest with
  | [] =>
    if intDigits.isEmpty then none
    else (digitsToNat intDigits).map (fun n => mkRat (signed.1 * n) 1)
  | '.' :: fracDigits =>
    if intDigits.isEmpty && fracDigits.isEmpty then none
    else if !fracDigits.all Char.isDigit then none
    else
      match digitsToNat intDigits, digitsToNat fracDigits with
      | some ip, some fp =>
        some (mkRat (signed.1 * (ip * 10 ^ fracDigits.length + fp)) (10 ^ fracDigits.length))
      | _, _ => none
  | _ => none

/- _coerce_float (aggregator.py lines 393-401): None stays None, numbers pass
through, strings are parsed defensively. -/
def coerceFloat : RawScalar → Option Rat
  | .null => none
  | .num q => some q
  | .str s => parseDecimal s

/- _to_float (fetchers.py lines 906-912): like _coerce_float but "" and "-"
are mapped to None up front (both also fail float()). -/
def toFloat : RawScalar → Option Rat
  | .null => none
  | .num q => some q
  | .str s => if s == "" || s == "-" then none else parseDecimal s

/- Raw daily entry of a weather payload.  `date` is the result of
`_coerce_date` on the raw field: `none` models a missing or unparsable date
(which falls back to "today"). -/
structure RawDailyEntry where
  date : Option Int := none
  tmax_c : RawScalar := .null
  tmin_c : RawScalar := .null
  precip_mm : RawScalar := .null
  wind_ms : RawScalar := .null
  summary : Option String := none
  precip_probability_pct : RawScalar := .null

structure RawHourlyEntry where
  ts : Int
  t_c : RawScalar := .null
  rh_pct : RawScalar := .null
  wind_ms : RawScalar := .null
  gust_ms : RawScalar := .null
  precip_mm : RawScalar := .null
  swrad_wm2 : RawScalar := .null

/- Raw warning entry; missing type/level/area take the .get defaults. -/
structure RawWarningEntry where
  type : Option String := none
  level : Option String := none
  area : Option String := none
  from_ : Int
  to_ : Int

structure RawWeatherPayload where
  issued_at : Option Int := none
  daily : List RawDailyEntry := []
  hourly : List RawHourlyEntry := []
  warnings : List RawWarningEntry := []
  provenance : Option String := none

/- AggregationService._normalize_kma (aggregator.py lines 192-246). -/
def normalizeKma (data : Option RawWeatherPayload) (today : Int) : NormalizedSource :=
  match data with
  | none => { issued_at := none, daily := [], hourly := [], warnings := [], provenance := none }
  | some d =>
    { issued_at := d.issued_at
      daily := d.daily.map (fun e =>
        { date := e.date.getD today
          tmax_c := coerceFloat e.tmax_c
          tmin_c := coerceFloat e.tmin_c
          precip_mm := coerceFloat e.precip_mm
          wind_ms := coerceFloat e.wind_ms
          summary := e.summary
          precip_probability_pct := coerceFloat e.precip_probability_pct
          src := some "kma" })
      hourly := d.hourly.map (fun e =>
        { ts := e.ts
          t_c := coerceFloat e.t_c
          rh_pct := coerceFloat e.rh_pct
          wind_ms := coerceFloat e.wind_ms
          gust_ms := coerceFloat e.gust_ms
          precip_mm := coerceFloat e.precip_mm
          src := some "kma" })
      warnings := d.warnings.map (fun w =>
        { type := w.type.getD "HEAT", level := w.level.getD "WATCH"
          area := w.area.getD "", from_ := w.from_, to_ := w.to_ })
      provenance := d.provenance }

/- AggregationService._normalize_open_meteo (aggregator.py lines 248-291):
like the KMA normalizer but with `swrad_wm2`, no warnings, src "open-meteo". -/
def normalizeOpenMeteo (data : Option RawWeatherPayload) (today : Int) : NormalizedSource :=
  match data with
  | none => { issued_at := none, daily := [], hourly := [], warnings := [], provenance := none }
  | some d =>
    { issued_at := d.issued_at
      daily := d.daily.map (fun e =>
        { date := e.date.getD today
          tmax_c := coerceFloat e.tmax_c
          tmin_c := coerceFloat e.tmin_c
          precip_mm := coerceFloat e.precip_mm
          wind_ms := coerceFloat e.wind_ms
          summary := e.summary
          precip_probability_pct := coerceFloat e.precip_probability_pct
          src := some "open-meteo" })
      hourly := d.hourly.map (fun e =>
        { ts := e.ts
          t_c := coerceFloat e.t_c
          rh_pct := coerceFloat e.rh_pct
          wind_ms := coerceFloat e.wind_ms
          gust_ms := coerceFloat e.gust_ms
          precip_mm := coerceFloat e.precip_mm
          swrad_wm2 := coerceFloat e.swrad_wm2
          src := some "open-meteo" })
      warnings := []
      provenance := d.provenance }

/- Raw NPMS payload pieces for _normalize_npms (aggregator.py lines 293-334). -/
inductive ProvenanceField where
  | absent
  | str (s : String)
  | list (items : List String)
deriving DecidableEq

structure RawBulletinEntry where
  pest : Option String := none
  risk : Option String := none
  since : Option Int := none
  summary : Option String := none

structure RawObservationEntry where
  pest : Option String := none
  metric : Option String := none
  code : Option String := none
  value : RawScalar := .null
  area : Option String := none
  unit : Option String := none

structure RawNpmsPayload where
  issued_at : Option Int := none
  provenance : ProvenanceField := .absent
  bulletins : List RawBulletinEntry := []
  observations : List RawObservationEntry := []

/- AggregationService._normalize_npms: builds the pest section; values pass
through _coerce_float with no filtering of zero or null readings. -/
def normalizeNpms (data : Option RawNpmsPayload) (profile : AggregateProfile)
    (today : Int) : PestSection :=
  match data with
  | none => { crop := profile.crop, bulletins := [], observations := [], provenance := [] }
  | some d =>
    { crop := profile.crop
      bulletins := d.bulletins.map (fun e =>
        { pest := e.pest.getD "", risk := e.risk.getD "LOW"
          since := e.since.getD today, summary := e.summary.getD "" })
      observations := d.observations.map (fun e =>
        { pest := e.pest.getD "", metric := e.metric.getD ""
          code := e.code.getD "", value := coerceFloat e.value
          area := e.area.getD "", unit := e.unit })
      provenance :=
        match d.provenance with
        | .absent => []
        | .str s => [s]
        | .list items => items.filter (fun i => !(i == "")) }

/- _rain_run_max_days (soft_hints.py lines 65-74): a fold carrying
(current run, best run); `best or None` turns a zero best into None. -/
def rainQual (e : ClimateDaily) : Bool :=
  match e.precip_mm with
  | some p => decide (0 < p)
  | none => false

def rainRunStep (st : Nat × Nat) (e : ClimateDaily) : Nat × Nat :=
  if rainQual e then (st.1 + 1, max st.2 (st.1 + 1)) else (0, st.2)

def rainRunMaxDays (daily : List ClimateDaily) : Option Nat :=
  let st := daily.foldl rainRunStep (0, 0)
  if st.2 = 0 then none else some st.2

/- Specification-level description of "longest run of consecutive qualifying
entries": the maximum over all suffixes of the length of the qualifying
prefix of that suffix. -/
def leadRun (l : List ClimateDaily) : Nat :=
  (l.takeWhile rainQual).length

def maxRunSpec : List ClimateDaily → Nat
  | [] => 0
  | e :: t => max (leadRun (e :: t)) (maxRunSpec t)

/- _count_hours (soft_hints.py lines 77-83); the getattr field access is an
accessor argument. -/
def countHours (hourly : List ClimateHourly) (field : ClimateHourly → Option Rat)
    (threshold : Rat) : Option Nat :=
  let total := hourly.countP (fun e =>
    match field e with
    | some v => decide (threshold ≤ v)
    | none => false)
  if total = 0 then none else some total

def tsHour (t : Int) : Int := t / 3600 % 24

def tsDay (t : Int) : Int := t / 86400

/- _wet_nights (soft_hints.py lines 86-101): hours 21-23 bucket to their own
calendar night, hours 0-5 to the previous one; a night qualifies with at
least 3 qualifying hours. -/
def wetNights (hourly : List ClimateHourly) : Option Nat :=
  let keys := hourly.filterMap (fun e =>
    match e.rh_pct with
    | none => none
    | some rh =>
      if rh < 90 then none
      else if 21 ≤ tsHour e.ts && tsHour e.ts ≤ 23 then some (tsDay e.ts)
      else if 0 ≤ tsHour e.ts && tsHour e.ts ≤ 5 then some (tsDay (e.ts - 86400))
      else none)
  let qualifying := keys.dedup.countP (fun k => 3 ≤ keys.count k)
  if qualifying = 0 then none else some qualifying

/- _diurnal_range_max (soft_hints.py lines 104-112). -/
def diurnalRangeMax (daily : List ClimateDaily) : Option Rat :=
  (daily.filterMap (fun e =>
    match e.tmax_c, e.tmin_c with
    | some a, some b => some (a - b)
    | _, _ => none)).max?

/- compute_soft_hints (soft_hints.py lines 17-30). -/
def computeSoftHints (daily : List ClimateDaily) (hourly : List ClimateHourly)
    (warnings : List WeatherWarning) : SoftHints :=
  { rain_run_max_days := rainRunMaxDays daily
    heat_hours_ge_33c := countHours hourly (·.t_c) 33
    wind_hours_ge_10ms := countHours hourly (·.wind_ms) 10
    wet_nights_count := wetNights hourly
    diurnal_range_max := diurnalRangeMax daily
    first_warning_type := warnings.head?.map (·.type) }

/- Strip all trailing occurrences of a character, Python str.rstrip(c). -/
def rstripCh (s : String) (c : Char) : String :=
  String.mk ((s.data.reverse.dropWhile (fun x => x == c)).reverse)

def lstripCh (s : String) (c : Char) : String :=
  String.mk (s.data.dropWhile (fun x => x == c))

def twoDigits (m : Int) : String :=
  (if m < 10 then "0" else "") ++ toString m

/- Model of Python `f"{v:.2f}"`: round to hundredths (ties to even) and print
with two decimals; implemented on num/den integers so that it evaluates in
the kernel. -/
def fmt2f (q : Rat) : String :=
  let n : Int := q.num * 100
  let d : Int := (q.den : Int)
  let fl : Int := n / d
  let r2 : Int := n % d
  let rounded : Int :=
    if d < 2 * r2 then fl + 1
    else if 2 * r2 < d then fl
    else if fl % 2 = 0 then fl else fl + 1
  if rounded < 0 then
    "-" ++ (toString (-rounded / 100) ++ "." ++ twoDigits (-rounded % 100))
  else toString (rounded / 100) ++ "." ++ twoDigits (rounded % 100)

/- TARGET_METRIC_CODE and PEACH_MOTH_THRESHOLD (pest_hints.py lines 9-10). -/
def targetMetricCode : String := "SS0127"

def peachMothThreshold : Rat := 10

def pestHintLine (area valueStr : String) : String :=
  area ++ " 복숭아순나방(트랩당마리수) " ++ valueStr
    ++ "마리 관측 — 10마리 이상으로 높음. 살충제 방제 검토를 권장합니다 (출처: NPMS SVC53)."

/- compute_pest_hints (pest_hints.py lines 13-30): for observations of the
target metric code with value at least the threshold, emit the advisory
line; the area falls back to the default when falsy, the value is rendered
with two decimals and trailing zeros then a trailing dot stripped. -/
def computePestHints (observations : List PestObservation) : List String :=
  observations.filterMap (fun obs =>
    if !(obs.code == targetMetricCode) then none
    else
      match obs.value with
      | none => none
      | some v =>
        if v < peachMothThreshold then none
        else
          some (pestHintLine (if obs.area == "" then "안동시" else obs.area)
            (rstripCh (rstripCh (fmt2f v) '0') '.')))

/- Fractional decimal digits of r/d (0 ≤ r < d), at most `fuel` digits;
used to model Python str(float) on exact decimal values. -/
def fracDigitStr : Nat → Int → Int → String
  | 0, _, _ => ""
  | fuel + 1, r, d =>
    if r = 0 then ""
    else toString (r * 10 / d) ++ fracDigitStr fuel (r * 10 % d) d

/- Model of Python `f"{v}"` on a float holding an exact decimal value:
sign, integer part, then fractional digits (".0" when the value is whole). -/
def pyFloatStr (q : Rat) : String :=
  let sign := if q.num < 0 then "-" else ""
  let n : Int := if q.num < 0 then -q.num else q.num
  let d : Int := (q.den : Int)
  let frac := fracDigitStr 32 (n % d) d
  sign ++ toString (n / d) ++ "." ++ (if frac == "" then "0" else frac)

/- AggregationService._format_npms_text (aggregator.py lines 179-190).
The NPMS_TARGET_SIGUNGU_CODE environment variable is an explicit argument. -/
def formatNpmsText (pest : PestSection) (regionCode : Option String)
    (envTargetCode : Option String) : String :=
  let targetName := "안동시"
  let targetCode :=
    if strTruthy envTargetCode then envTargetCode.getD ""
    else if strTruthy regionCode then (regionCode.getD "").take 4
    else "-"
  let header := "=== Non-zero observations for " ++ targetName ++ " (" ++ targetCode ++ ") ==="
  if pest.observations.isEmpty then header ++ "\n(none)"
  else
    String.intercalate "\n"
      (header :: (pest.observations.enum.map (fun ie =>
        let valueStr := match ie.2.value with
          | none => ""
          | some v => pyFloatStr v
        toString (ie.1 + 1) ++ ". " ++ ie.2.pest ++ " [" ++ ie.2.code ++ "] = "
          ++ valueStr ++ " (area: " ++ ie.2.area ++ ")")))

/- Error classes raised out of AggregationService.aggregate, as discriminated
by the HTTP route (src/src/api/routes/aggregate.py): ValueError maps to 400
(bad request) and RuntimeError to 503 (service unavailable).  The aggregate
body itself only ever raises ValueError (resolution failure, missing demo
bundle); the runtimeError constructor exists to express the 5xx-equivalent
class the route would translate. -/
inductive AggError where
  | valueError (msg : String)
  | runtimeError (msg : String)
deriving DecidableEq

/- Results of the three fan-out fetches after gather: an exception or a
non-dict result is already collapsed to None (aggregator.py lines 98-110). -/
structure FetchResults where
  kma : Option RawWeatherPayload := none
  open_meteo : Option RawWeatherPayload := none
  npms : Option RawNpmsPayload := none

structure EnvConfig where
  npms_target_sigungu_code : Option String := none

/- The aggregate pipeline body shared by the live path (aggregator.py lines
108-136) and the demo path (lines 58-84): normalize each source, build the
climate section from the merged series, format the pest text, compute pest
hints and soft hints, and assemble the evidence pack. -/
def aggregatePipeline (profile : AggregateProfile) (kmaRaw omRaw : Option RawWeatherPayload)
    (npmsRaw : Option RawNpmsPayload) (npmsRegionCode : Option String)
    (env : EnvConfig) (now today : Int) : AggregateEvidencePack :=
  let kmaNorm := normalizeKma kmaRaw today
  let omNorm := normalizeOpenMeteo omRaw today
  let npmsNorm := normalizeNpms npmsRaw profile today
  let climate := buildClimateSection (determineBaseDate omNorm kmaNorm today) kmaNorm omNorm
  let text := formatNpmsText npmsNorm npmsRegionCode env.npms_target_sigungu_code
  let pestHints := computePestHints npmsNorm.observations
  let issuedAt := selectIssuedAt
    [kmaNorm.issued_at, omNorm.issued_at, npmsRaw.bind (·.issued_at)] now
  let softHints :=
    if !climate.daily.isEmpty || !climate.hourly.isEmpty || !climate.warnings.isEmpty then
      some (computeSoftHints climate.daily climate.hourly climate.warnings)
    else none
  { profile := profile, issued_at := issuedAt, climate := climate
    pest := npmsNorm, text := text, pest_hints := pestHints, soft_hints := softHints }

/- Scripted demo bundle (demo.py).  Encoding: day 0 is 2025-10-30 KST, so
2025-11-02 is day 3; timestamps are seconds from day 0 midnight KST, so the
issued_at of 2025-10-30 06:00 is 21600. -/
structure DemoBundle where
  kma : RawWeatherPayload
  open_meteo : RawWeatherPayload
  npms : RawNpmsPayload

/- Exact decimal with one fractional digit (used for the demo weather data,
for example 21.5 = tenth 215). -/
def tenth (n : Int) : Rat := mkRat n 10

/- The peach-moth trap count 92.4 from the demo NPMS payload, as a reduced
rational so that kernel evaluation of equality tests on it succeeds. -/
def rat924 : Rat := ⟨462, 5, by norm_num, by norm_num⟩

def andongKmaDaily : List RawDailyEntry :=
  [ { date := some 3, summary := some "맑음", precip_probability_pct := .num 10 },
    { date := some 4, summary := some "맑음 / 구름많음", precip_probability_pct := .num 20 },
    { date := some 5, summary := some "구름많음", precip_probability_pct := .num 30 },
    { date := some 6, summary := some "흐림", precip_probability_pct := .num 40 },
    { date := some 7, summary := some "흐리고 비", precip_probability_pct := .num 60 },
    { date := some 8, summary := some "구름많음", precip_probability_pct := .num 30 },
    { date := some 9, summary := some "맑음", precip_probability_pct := .num 10 } ]

def andongOmDaily : List RawDailyEntry :=
  [ { date := some 0, tmax_c := .num (tenth 215), tmin_c := .num (tenth 82),
      precip_mm := .num 0, wind_ms := .num (tenth 28) },
    { date := some 1, tmax_c := .num (tenth 221), tmin_c := .num (tenth 90),
      precip_mm := .num 0, wind_ms := .num (tenth 31) },
    { date := some 2, tmax_c := .num (tenth 210), tmin_c := .num (tenth 85),
      precip_mm := .num (tenth 4), wind_ms := .num (tenth 25) },
    { date := some 3, tmax_c := .num (tenth 204), tmin_c := .num (tenth 78),
      precip_mm := .num 0, wind_ms := .num (tenth 29) },
    { date := some 4, tmax_c := .num (tenth 198), tmin_c := .num (tenth 69),
      precip_mm := .num 0, wind_ms := .num (tenth 27) },
    { date := some 5, tmax_c := .num (tenth 186), tmin_c := .num (tenth 65),
      precip_mm := .num (tenth 12), wind_ms := .num (tenth 24) },
    { date := some 6, tmax_c := .num (tenth 172), tmin_c := .num (tenth 59),
      precip_mm := .num 3, wind_ms := .num 3 },
    { date := some 7, tmax_c := .num (tenth 188), tmin_c := .num (tenth 67),
      precip_mm := .num (tenth 6), wind_ms := .num (tenth 26) },
    { date := some 8, tmax_c := .num (tenth 195), tmin_c := .num (tenth 71),
      precip_mm := .num 0, wind_ms := .num (tenth 23) },
    { date := some 9, tmax_c := .num (tenth 203), tmin_c := .num (tenth 75),
      precip_mm := .num 0, wind_ms := .num (tenth 21) },
    { date := some 10, tmax_c := .num 21, tmin_c := .num 8,
      precip_mm := .num 0, wind_ms := .num (tenth 24) } ]

def andongOmHourlyTemps : List Int :=
  [120, 125, 134, 150, 172, 191, 205, 213, 208, 189, 164, 142]

def andongOmHourlyRhs : List Int :=
  [80, 78, 75, 68, 60, 55, 52, 50, 54, 62, 70, 78]

def andongOmHourlyWinds : List Int :=
  [24, 26, 28, 30, 31, 32, 33, 32, 30, 28, 26, 24]

def andongOmHourly : List RawHourlyEntry :=
  (List.range 12).map (fun idx =>
    let t := andongOmHourlyTemps.getD idx 0
    let rh := andongOmHourlyRhs.getD idx 0
    let w := andongOmHourlyWinds.getD idx 0
    let hour := 6 + idx
    { ts := 21600 + (idx : Int) * 3600
      t_c := .num (tenth t)
      rh_pct := .num rh
      wind_ms := .num (tenth w)
      gust_ms := .num (tenth (w + 6))
      precip_mm := .num 0
      swrad_wm2 := .num (if 9 ≤ hour && hour ≤ 15 then 400 else 50) })

def andongBundle : DemoBundle :=
  { kma :=
      { issued_at := some 21600
        daily := andongKmaDaily
        hourly := []
        warnings := []
        provenance := some "KMA(2025-10-30)" }
    open_meteo :=
      { issued_at := some (21600 - 3600)
        daily := andongOmDaily
        hourly := andongOmHourly
        provenance := some "Open-Meteo(2025-10-30)" }
    npms :=
      { issued_at := some (21600 - 86400)
        provenance := .list ["NPMS(2025-10-29)", "NPMS-SVC53(2025-10-29)"]
        bulletins :=
          [ { pest := some "갈색무늬병", risk := some "MODERATE", since := some (-2),
              summary := some "강수 이후 전엽기 과원은 예방 살포 및 환기 강화" },
            { pest := some "탄저병", risk := some "LOW", since := some (-5),
              summary := some "일교차 큰 기간 꽃눈 주변 병반 점검" } ]
        observations :=
          [ { pest := some "사과굴나방", metric := some "트랩당마리수",
              code := some "SS0128", value := .num rat924, area := some "안동시" },
            { pest := some "갈색무늬병", metric := some "병든잎률",
              code := some "SS0101", value := .num 0, area := some "안동시" } ] } }

/- get_demo_bundle (demo.py lines 118-124): the bundle dict holds exactly the
("andong-si", "apple") key. -/
def getDemoBundle (region crop : String) : Option DemoBundle :=
  if region.toLower == "andong-si" && crop == "apple" then some andongBundle else none

/- AggregationService.aggregate (aggregator.py lines 49-136) with explicit
inputs for everything the service reads from the outside world: the gathered
fetch results, the environment, and the clock.  Raised ValueErrors become
`Except.error (AggError.valueError _)`; the body contains no other raise. -/
def aggregate (payload : AggregateRequest) (fetched : FetchResults)
    (env : EnvConfig) (now today : Int) : Except AggError AggregateEvidencePack :=
  let profile := profileOfRequest payload
  match resolve profile with
  | .error msg => .error (.valueError msg)
  | .ok resolved =>
    if payload.demo then
      match getDemoBundle profile.region (cropStr profile.crop) with
      | none =>
        .error (.valueError ("No demo data for profile " ++ profile.region ++ "/"
          ++ cropStr profile.crop))
      | some bundle =>
        .ok (aggregatePipeline profile (some bundle.kma) (some bundle.open_meteo)
          (some bundle.npms) resolved.npms_region_code env now today)
    else
      .ok (aggregatePipeline profile fetched.kma fetched.open_meteo fetched.npms
        resolved.npms_region_code env now today)

/- Kernel-evaluable character-list helpers standing in for Python string
primitives (str.replace, str.strip, str.split): the core String versions are
defined by well-founded recursion on byte positions, which the kernel cannot
reduce, so concrete witnesses could not be evaluated through them. -/
def trimChars (cs : List Char) : List Char :=
  ((cs.dropWhile Char.isWhitespace).reverse.dropWhile Char.isWhitespace).reverse

/- Python str.strip(). -/
def pyStrip (s : String) : String := String.mk (trimChars s.data)

def replaceCharsAux (pattern repl : List Char) : Nat → List Char → List Char
  | 0, hay => hay
  | _ + 1, [] => []
  | fuel + 1, c :: rest =>
    if pattern.isPrefixOf (c :: rest) then
      repl ++ replaceCharsAux pattern repl fuel ((c :: rest).drop pattern.length)
    else c :: replaceCharsAux pattern repl fuel rest

/- Python str.replace for a nonempty pattern (left-to-right, non-overlapping). -/
def replaceStr (s pattern repl : String) : String :=
  if pattern == "" then s
  else String.mk (replaceCharsAux pattern.data repl.data s.data.length s.data)

def splitWsAux : List Char → List Char → List (List Char)
  | cur, [] => [cur.reverse]
  | cur, c :: rest =>
    if c.isWhitespace then cur.reverse :: splitWsAux [] rest
    else splitWsAux (c :: cur) rest

/- Python " ".join(s.split()): whitespace runs collapse, edges trimmed. -/
def collapseWs (s : String) : String :=
  String.intercalate " "
    (((splitWsAux [] s.data).map String.mk).filter (fun part => !(part == "")))

/- html.unescape restricted to the basic named entities that can occur in the
NPMS text fields; the full entity table is irrelevant to every claim. -/
def unescapeBasic (s : String) : String :=
  replaceStr (replaceStr (replaceStr (replaceStr (replaceStr s
    "&amp;" "&") "&lt;" "<") "&gt;" ">") "&quot;" "\"") "&nbsp;" " "

/- _clean_text (fetchers.py lines 922-928) on an optional string field:
None/""/"-" become "", otherwise entities are unescaped, &nbsp and the
no-break space become plain spaces, and whitespace runs are collapsed. -/
def cleanText (v : Option String) : String :=
  match v with
  | none => ""
  | some s =>
    if s == "" || s == "-" then ""
    else collapseWs (unescapeBasic (replaceStr (replaceStr s "&nbsp" " ") "\u00A0" " "))

/- _region_code_variants (fetchers.py lines 1021-1030). -/
def regionCodeVariants (regionCode : String) : List String :=
  ([pyStrip regionCode, rstripCh (pyStrip regionCode) '0', lstripCh (pyStrip regionCode) '0',
    String.mk ((pyStrip regionCode).data.take 4),
    String.mk ((pyStrip regionCode).data.take 5)].dedup).filter (fun v => !(v == ""))

/- _split_metric_name (fetchers.py lines 1033-1039): "pest(metric)" names
split at the first parenthesis when the name ends with ")". -/
def splitMetricName (name : String) : String × String × Option String :=
  let cleaned := cleanText (some name)
  if cleaned.data.contains '(' && (cleaned.data.getLast? == some ')') then
    (pyStrip (String.mk (cleaned.data.takeWhile (fun c => !(c == '(')))),
     pyStrip (rstripCh (String.mk ((cleaned.data.dropWhile (fun c => !(c == '('))).drop 1)) ')'),
     none)
  else (cleaned, "", none)

/- Python substring containment `needle in hay` on character lists. -/
def charsContain (needle hay : List Char) : Bool :=
  (List.range (hay.length + 1)).any (fun i => needle.isPrefixOf (hay.drop i))

/- One entry of the NPMS SVC53 structList, with the fields that
_parse_npms_observations reads. -/
structure RawNpmsStructEntry where
  sigunguCode : Option String := none
  sigunguNm : Option String := none
  dbyhsNm : Option String := none
  inqireValue : RawScalar := .null
  inqireCnClCode : Option String := none

structure NpmsParsedPayload where
  issued_at : Int
  observations : List RawObservationEntry
  provenance : String

/- The payload dict the NPMS fetcher returns, viewed as aggregator input. -/
def npmsPayloadOfParsed (p : NpmsParsedPayload) : RawNpmsPayload :=
  { issued_at := some p.issued_at
    provenance := .str p.provenance
    bulletins := []
    observations := p.observations }

/- The per-entry body of the NpmsFetcher._parse_npms_observations loop
(fetchers.py lines 864-885): entries outside the target region (by code
variant and by name containment) are skipped, the metric name is split, the
value coerced, and None/zero values dropped. -/
def parseNpmsObservationEntry (targets : List String) (targetName : String)
    (e : RawNpmsStructEntry) : Option RawObservationEntry :=
  if !(targets.contains (pyStrip (e.sigunguCode.getD "")))
      && !(charsContain targetName.data (cleanText e.sigunguNm).data) then
    none
  else
    match toFloat e.inqireValue with
    | none => none
    | some v =>
      if v == 0 then none
      else
        some { pest := some (splitMetricName (cleanText e.dbyhsNm)).1,
               metric := some (splitMetricName (cleanText e.dbyhsNm)).2.1,
               unit := (splitMetricName (cleanText e.dbyhsNm)).2.2,
               code := some (cleanText e.inqireCnClCode), value := .num v,
               area := some (cleanText e.sigunguNm) }

/- NpmsFetcher._parse_npms_observations (fetchers.py lines 853-895): keep
entries for the target region, coerce and zero-filter the values, and return
None when no entry or no observation survives.  The structList unwrapping of
the raw JSON and the wall-clock issued_at/provenance strings are plumbing;
dates inside the provenance label are rendered as day indices. -/
def parseNpmsObservations (entries : List RawNpmsStructEntry)
    (regionCode targetName : String) (now : Int) : Option NpmsParsedPayload :=
  if entries.isEmpty then none
  else if (entries.filterMap
      (parseNpmsObservationEntry (regionCodeVariants regionCode) targetName)).isEmpty then none
  else
    some { issued_at := now
           observations := entries.filterMap
             (parseNpmsObservationEntry (regionCodeVariants regionCode) targetName)
           provenance := "NPMS-SVC53(" ++ toString (tsDay now) ++ ")" }


/- Proof-auxiliary: the best rain run obtainable by the fold when entering a
list with a current run of length r. -/
def maxCont : Nat → List ClimateDaily → Nat
  | _, [] => 0
  | r, e :: t => if rainQual e then max (r + 1) (maxCont (r + 1) t) else maxCont 0 t

/- Concrete inputs used by counterexamples and witnesses below. -/
def c2OmSource : NormalizedSource :=
  { issued_at := none, daily := [{ date := 5 }], hourly := [], warnings := [], provenance := none }

def c2KmaSource : NormalizedSource :=
  { issued_at := none, daily := [{ date := 3 }], hourly := [], warnings := [], provenance := none }

def c2wOmSource : NormalizedSource :=
  { issued_at := none, daily := [{ date := 2 }, { date := 4 }], hourly := [], warnings := [],
    provenance := none }

def c2wKmaSource : NormalizedSource :=
  { issued_at := none, daily := [{ date := 3 }], hourly := [], warnings := [], provenance := none }

def demoProfile : AggregateProfile :=
  { region := "Andong-si", crop := .apple, stage := "flowering" }

/- Claim C5 scenario inputs: both weather fetchers return None; the pest
fetcher returns one observation with value 11.0 for the target metric code. -/
def scenarioNpms : RawNpmsPayload :=
  { issued_at := some 0
    provenance := .str "NPMS-SVC53(2025-10-29)"
    bulletins := []
    observations :=
      [ { pest := some "복숭아순나방", metric := some "트랩당마리수"
          code := some "SS0127", value := .num 11, area := some "안동시" } ] }

theorem dictGetDaily_props {l : List ClimateDaily} {day : Int} {e : ClimateDaily}
    (h : dictGetDaily l day = some e) : e.date = day ∧ e ∈ l := by
  refine ⟨?_, ?_⟩
  · have hp := List.find?_some h
    simpa using hp
  · have hm := List.mem_of_find?_eq_some h
    simpa using hm

theorem dictGetHourly_props {l : List ClimateHourly} {t : Int} {e : ClimateHourly}
    (h : dictGetHourly l t = some e) : e.ts = t ∧ e ∈ l := by
  refine ⟨?_, ?_⟩
  · have hp := List.find?_some h
    simpa using hp
  · have hm := List.mem_of_find?_eq_some h
    simpa using hm

theorem mergeDay_props {day : Int} {kmaDaily omDaily : List ClimateDaily} {m : ClimateDaily}
    (h : mergeDay day kmaDaily omDaily = some m) :
    m.date = day ∧ (m.date ∈ kmaDaily.map (·.date) ∨ m.date ∈ omDaily.map (·.date)) := by
  unfold mergeDay at h
  cases hom : dictGetDaily omDaily day with
  | some oe =>
    rw [hom] at h
    cases hk : dictGetDaily kmaDaily day with
    | some ke =>
      rw [hk] at h
      obtain ⟨hdate, hmem⟩ := dictGetDaily_props hom
      have hm : m.date = oe.date := by
        cases h
        rfl
      refine ⟨by rw [hm, hdate], Or.inr ?_⟩
      rw [hm]
      exact List.mem_map_of_mem _ hmem
    | none =>
      rw [hk] at h
      obtain ⟨hdate, hmem⟩ := dictGetDaily_props hom
      cases h
      exact ⟨hdate, Or.inr (List.mem_map_of_mem _ hmem)⟩
  | none =>
    rw [hom] at h
    cases hk : dictGetDaily kmaDaily day with
    | some ke =>
      rw [hk] at h
      obtain ⟨hdate, hmem⟩ := dictGetDaily_props hk
      cases h
      exact ⟨hdate, Or.inl (List.mem_map_of_mem _ hmem)⟩
    | none =>
      rw [hk] at h
      cases h

/-- Claim C3: daily horizon invariant.  For every base date and pair of
normalized daily inputs, the merged daily list has at most 11 entries, its
dates are strictly increasing (so there is at most one record per date and
the list is in ascending date order), every date lies in
[base_date, base_date + 10], and every emitted date is present in at least
one source (no synthetic placeholder days). -/
theorem mergeDaily_horizon_invariant (base : Int) (kmaDaily omDaily : List ClimateDaily) :
    (mergeDaily base kmaDaily omDaily).length ≤ 11 ∧
    List.Pairwise (fun a b => a.date < b.date) (mergeDaily base kmaDaily omDaily) ∧
    ∀ e ∈ mergeDaily base kmaDaily omDaily,
      base ≤ e.date ∧ e.date ≤ base + 10 ∧
      (e.date ∈ kmaDaily.map (·.date) ∨ e.date ∈ omDaily.map (·.date)) := by
  refine ⟨?_, ?_, ?_⟩
  · have h := List.length_filterMap_le
      (fun offset : Nat => mergeDay (base + (offset : Int)) kmaDaily omDaily) (List.range 11)
    simpa [mergeDaily] using h
  · rw [mergeDaily, List.pairwise_filterMap]
    refine (List.pairwise_lt_range 11).imp ?_
    intro a b hab x hx y hy
    have hxd := (mergeDay_props hx).1
    have hyd := (mergeDay_props hy).1
    rw [hxd, hyd]
    omega
  · intro e he
    rw [mergeDaily] at he
    obtain ⟨o, ho, hsome⟩ := List.mem_filterMap.mp he
    have hrange := List.mem_range.mp ho
    obtain ⟨hdate, hmem⟩ := mergeDay_props hsome
    refine ⟨by omega, by omega, hmem⟩

/-- Claim C3 witness: the invariant applied to a concrete pair of inputs with
an overlapping day, with the per-entry bounds discharged at a concrete member
of the merged output. -/
theorem mergeDaily_horizon_invariant_witness :
    (mergeDaily 0 [{ date := 1 }, { date := 20 }] [{ date := 0 }, { date := 1 }]).length ≤ 11 ∧
    ((0 : Int) ≤ ({ date := 1 } : ClimateDaily).date ∧
      ({ date := 1 } : ClimateDaily).date ≤ 0 + 10 ∧
      (({ date := 1 } : ClimateDaily).date ∈
          [({ date := 1 } : ClimateDaily), { date := 20 }].map (·.date) ∨
        ({ date := 1 } : ClimateDaily).date ∈
          [({ date := 0 } : ClimateDaily), { date := 1 }].map (·.date))) := by
  have h := mergeDaily_horizon_invariant 0 [{ date := 1 }, { date := 20 }]
    [{ date := 0 }, { date := 1 }]
  exact ⟨h.1, h.2.2 { date := 1 } (by decide)⟩

/-- Claim C1: field-level daily enrichment.  For any day of the 11-day horizon
present in both sources' daily maps, the merged output contains a record for
that day that keeps every numeric field (tmax_c, tmin_c, precip_mm, wind_ms)
and the source tag of the global-fallback (open-meteo) entry; its summary is
taken from the KMA entry exactly when the KMA summary is truthy and the
fallback's is falsy (so a present fallback summary is never overwritten), and
its precip_probability_pct is taken from the KMA entry exactly when the KMA
value is present and the fallback's is None (so a present fallback value is
never overwritten). -/
theorem mergeDaily_enrichment (base day : Int) (kmaDaily omDaily : List ClimateDaily)
    (oe ke : ClimateDaily) (hlo : base ≤ day) (hhi : day ≤ base + 10)
    (hom : dictGetDaily omDaily day = some oe) (hkma : dictGetDaily kmaDaily day = some ke) :
    ∃ m ∈ mergeDaily base kmaDaily omDaily,
      m.date = day ∧
      m.tmax_c = oe.tmax_c ∧ m.tmin_c = oe.tmin_c ∧
      m.precip_mm = oe.precip_mm ∧ m.wind_ms = oe.wind_ms ∧ m.src = oe.src ∧
      m.summary = (if strTruthy ke.summary && !strTruthy oe.summary then ke.summary
        else oe.summary) ∧
      m.precip_probability_pct = (if ke.precip_probability_pct.isSome
          && oe.precip_probability_pct.isNone then ke.precip_probability_pct
        else oe.precip_probability_pct) ∧
      (strTruthy oe.summary = true → m.summary = oe.summary) ∧
      (oe.precip_probability_pct ≠ none →
        m.precip_probability_pct = oe.precip_probability_pct) := by
  have hsome : mergeDay day kmaDaily omDaily =
      some { oe with
        summary := if strTruthy ke.summary && !strTruthy oe.summary then ke.summary
          else oe.summary,
        precip_probability_pct := if ke.precip_probability_pct.isSome
            && oe.precip_probability_pct.isNone then ke.precip_probability_pct
          else oe.precip_probability_pct } := by
    unfold mergeDay
    rw [hom, hkma]
  refine ⟨{ oe with
      summary := if strTruthy ke.summary && !strTruthy oe.summary then ke.summary
        else oe.summary,
      precip_probability_pct := if ke.precip_probability_pct.isSome
          && oe.precip_probability_pct.isNone then ke.precip_probability_pct
        else oe.precip_probability_pct },
    ?_, ?_, rfl, rfl, rfl, rfl, rfl, rfl, rfl, ?_, ?_⟩
  · rw [mergeDaily]
    refine List.mem_filterMap.mpr ⟨(day - base).toNat, List.mem_range.mpr (by omega), ?_⟩
    rw [show base + ((day - base).toNat : Int) = day by omega]
    exact hsome
  · exact (dictGetDaily_props hom).1
  · intro ht
    simp [ht]
  · intro hp
    have : oe.precip_probability_pct.isNone = false := by
      cases hval : oe.precip_probability_pct with
      | none => exact absurd hval hp
      | some v => rfl
    simp [this]

/-- Claim C1 witness: the enrichment theorem applied at a concrete day present
in both sources, with every hypothesis discharged by evaluation. -/
theorem mergeDaily_enrichment_witness :
    ∃ m ∈ mergeDaily 0
        [{ date := 2, summary := some "Clear", precip_probability_pct := some 30 }]
        [{ date := 2, tmax_c := some 20, tmin_c := some 10 }],
      m.date = 2 ∧
      m.tmax_c = ({ date := 2, tmax_c := some 20, tmin_c := some 10 } : ClimateDaily).tmax_c ∧
      m.tmin_c = ({ date := 2, tmax_c := some 20, tmin_c := some 10 } : ClimateDaily).tmin_c ∧
      m.precip_mm = ({ date := 2, tmax_c := some 20, tmin_c := some 10 } : ClimateDaily).precip_mm ∧
      m.wind_ms = ({ date := 2, tmax_c := some 20, tmin_c := some 10 } : ClimateDaily).wind_ms ∧
      m.src = ({ date := 2, tmax_c := some 20, tmin_c := some 10 } : ClimateDaily).src ∧
      m.summary = (if strTruthy (some "Clear") && !strTruthy none then some "Clear" else none) ∧
      m.precip_probability_pct = (if (some (30 : Rat)).isSome && (none : Option Rat).isNone
        then some 30 else none) ∧
      (strTruthy none = true → m.summary = none) ∧
      ((none : Option Rat) ≠ none → m.precip_probability_pct = none) := by
  have h := mergeDaily_enrichment 0 2
    [{ date := 2, summary := some "Clear", precip_probability_pct := some 30 }]
    [{ date := 2, tmax_c := some 20, tmin_c := some 10 }]
    { date := 2, tmax_c := some 20, tmin_c := some 10 }
    { date := 2, summary := some "Clear", precip_probability_pct := some 30 }
    (by decide) (by decide) (by decide) (by decide)
  exact h

/-- Claim C2 counterexample: the merge horizon base date is not the minimum
date across both sources.  With an open-meteo source holding only day 5 and a
KMA source holding only day 3, the minimum available date is 3 but
_determine_base_date returns 5 (it prefers the first open-meteo entry
unconditionally). -/
theorem determineBaseDate_not_min :
    determineBaseDate c2OmSource c2KmaSource 0 = 5 ∧
    ((c2OmSource.daily ++ c2KmaSource.daily).map (·.date)).min? = some 3 ∧
    determineBaseDate c2OmSource c2KmaSource 0 ≠
      (((c2OmSource.daily ++ c2KmaSource.daily).map (·.date)).min?).getD 0 := by
  refine ⟨rfl, by decide, by decide⟩

/-- Claim C2 amended: the horizon base date is the date of the FIRST entry of
the open-meteo daily list when that list is nonempty, else the date of the
first KMA entry, else today; it equals the earliest available date across
both sources exactly when each daily list is sorted ascending and the leading
open-meteo date (when open-meteo has data) does not exceed any KMA date —
which holds in particular for the sorted single-source payloads the
normalizers receive in practice.  Stated here: under those orderings the base
date is a member of the available dates and is minimal among them, with
"today" used only when neither source has daily data. -/
theorem determineBaseDate_first_entries (omNorm kmaNorm : NormalizedSource) (today : Int)
    (h1 : List.Pairwise (fun a b : ClimateDaily => a.date ≤ b.date) omNorm.daily)
    (h2 : List.Pairwise (fun a b : ClimateDaily => a.date ≤ b.date) kmaNorm.daily)
    (h3 : ∀ oe ∈ omNorm.daily.head?, ∀ ke ∈ kmaNorm.daily, oe.date ≤ ke.date) :
    ((omNorm.daily ++ kmaNorm.daily).map (·.date) = [] →
      determineBaseDate omNorm kmaNorm today = today) ∧
    ((omNorm.daily ++ kmaNorm.daily).map (·.date) ≠ [] →
      determineBaseDate omNorm kmaNorm today ∈ (omNorm.daily ++ kmaNorm.daily).map (·.date) ∧
      ∀ x ∈ (omNorm.daily ++ kmaNorm.daily).map (·.date),
        determineBaseDate omNorm kmaNorm today ≤ x) := by
  rcases omNorm with ⟨oIss, oDaily, oHourly, oWarn, oProv⟩
  rcases kmaNorm with ⟨kIss, kDaily, kHourly, kWarn, kProv⟩
  dsimp only at h1 h2 h3 ⊢
  unfold determineBaseDate
  dsimp only
  cases oDaily with
  | cons oe ot =>
    constructor
    · intro hnil
      simp at hnil
    · intro _
      refine ⟨by simp, ?_⟩
      intro x hx
      simp only [List.cons_append, List.map_cons, List.mem_cons, List.map_append,
        List.mem_append, List.mem_map] at hx
      rcases hx with heq | hx
      · subst heq
        exact le_of_eq rfl
      rcases hx with ⟨b, hb, rfl⟩ | ⟨b, hb, rfl⟩
      · exact List.rel_of_pairwise_cons h1 hb
      · exact h3 oe rfl b hb
  | nil =>
    cases kDaily with
    | cons ke kt =>
      constructor
      · intro hnil
        simp at hnil
      · intro _
        refine ⟨by simp, ?_⟩
        intro x hx
        simp only [List.nil_append, List.map_cons, List.mem_cons, List.mem_map] at hx
        rcases hx with heq | ⟨b, hb, rfl⟩
        · subst heq
          exact le_of_eq rfl
        · exact List.rel_of_pairwise_cons h2 hb
    | nil =>
      exact ⟨fun _ => rfl, fun hne => absurd rfl hne⟩

/-- Claim C2 witness: the amended characterization applied to concrete sorted
inputs (open-meteo days 2 and 4, KMA day 3); the base date is the earliest
available date, 2. -/
theorem determineBaseDate_first_entries_witness :
    determineBaseDate c2wOmSource c2wKmaSource 0 = 2 := by
  have h := determineBaseDate_first_entries c2wOmSource c2wKmaSource 0
    (by decide) (by decide) (by decide)
  obtain ⟨hmem, hle⟩ := h.2 (by decide)
  have h2 := hle 2 (by decide)
  have hcases : determineBaseDate c2wOmSource c2wKmaSource 0 = 2 ∨
      determineBaseDate c2wOmSource c2wKmaSource 0 = 4 ∨
      determineBaseDate c2wOmSource c2wKmaSource 0 = 3 := by
    simpa [c2wOmSource, c2wKmaSource] using hmem
  omega

theorem hourlyChoice_props {kmaHourly omHourly : List ClimateHourly} {t : Int}
    {e : ClimateHourly}
    (h : (dictGetHourly kmaHourly t <|> dictGetHourly omHourly t) = some e) : e.ts = t := by
  cases hk : dictGetHourly kmaHourly t with
  | some k =>
    rw [hk] at h
    simp at h
    subst h
    exact (dictGetHourly_props hk).1
  | none =>
    rw [hk] at h
    simp at h
    exact (dictGetHourly_props h).1

theorem headD_le_of_sorted {l : List Int} (hs : List.Sorted (· ≤ ·) l) :
    ∀ t ∈ l, l.headD 0 ≤ t := by
  cases l with
  | nil => intro t ht; cases ht
  | cons a r =>
    intro t ht
    rcases List.mem_cons.mp ht with rfl | hr
    · exact le_refl t
    · exact List.rel_of_sorted_cons hs t hr

/-- Claim C4: hourly merge correctness.  For every pair of normalized hourly
inputs, the merged list has strictly increasing timestamps (hence exactly one
record per timestamp, in sorted order); each kept record is the KMA record for
its timestamp when KMA has one, else the open-meteo record (the orElse
equation); and when any input timestamp exists there is a least input
timestamp t0 such that every kept record's timestamp lies in
[t0, t0 + 72 hours), so the span of the output is strictly below 72 hours. -/
theorem mergeHourly_spec (kmaHourly omHourly : List ClimateHourly) :
    List.Pairwise (fun a b => a.ts < b.ts) (mergeHourly kmaHourly omHourly) ∧
    (∀ e ∈ mergeHourly kmaHourly omHourly,
      (dictGetHourly kmaHourly e.ts <|> dictGetHourly omHourly e.ts) = some e) ∧
    (kmaHourly.map (·.ts) ++ omHourly.map (·.ts) ≠ [] →
      ∃ t0 ∈ kmaHourly.map (·.ts) ++ omHourly.map (·.ts),
        (∀ t ∈ kmaHourly.map (·.ts) ++ omHourly.map (·.ts), t0 ≤ t) ∧
        ∀ e ∈ mergeHourly kmaHourly omHourly, t0 ≤ e.ts ∧ e.ts < t0 + 72 * 3600) := by
  by_cases hk : ((kmaHourly.map (·.ts) ++ omHourly.map (·.ts)).dedup).isEmpty
  case pos =>
    have hnil : mergeHourly kmaHourly omHourly = [] := by
      unfold mergeHourly
      rw [if_pos hk]
    have hall : kmaHourly.map (·.ts) ++ omHourly.map (·.ts) = [] := by
      have := List.isEmpty_iff.mp hk
      rcases hcase : kmaHourly.map (·.ts) ++ omHourly.map (·.ts) with _ | ⟨x, xs⟩
      · rfl
      · exfalso
        have hx : x ∈ (kmaHourly.map (·.ts) ++ omHourly.map (·.ts)).dedup :=
          List.mem_dedup.mpr (by rw [hcase]; exact List.mem_cons_self x xs)
        rw [this] at hx
        cases hx
    refine ⟨?_, ?_, ?_⟩
    · rw [hnil]
      exact List.Pairwise.nil
    · rw [hnil]
      intro e he
      cases he
    · intro hne
      exact absurd hall hne
  case neg =>
    set keys := (kmaHourly.map (·.ts) ++ omHourly.map (·.ts)).dedup with hkeys
    set tss := List.insertionSort (· ≤ ·) keys with htss
    have hsorted : List.Sorted (· ≤ ·) tss := List.sorted_insertionSort (· ≤ ·) keys
    have hperm : tss.Perm keys := List.perm_insertionSort (· ≤ ·) keys
    have hnodup : tss.Nodup := hperm.nodup_iff.mpr (List.nodup_dedup _)
    have hlt : List.Pairwise (fun a b : Int => a < b) tss :=
      (hsorted.and hnodup).imp (fun hab => lt_of_le_of_ne hab.1 hab.2)
    have hmem_tss : ∀ t, t ∈ tss ↔ t ∈ kmaHourly.map (·.ts) ++ omHourly.map (·.ts) := by
      intro t
      rw [hperm.mem_iff, hkeys, List.mem_dedup]
    have hout : mergeHourly kmaHourly omHourly =
        (tss.takeWhile (fun t => t < tss.headD 0 + 72 * 3600)).filterMap
          (fun t => dictGetHourly kmaHourly t <|> dictGetHourly omHourly t) := by
      unfold mergeHourly
      rw [if_neg hk]
    have hmem_out : ∀ e ∈ mergeHourly kmaHourly omHourly,
        e.ts ∈ tss.takeWhile (fun t => t < tss.headD 0 + 72 * 3600) ∧
        (dictGetHourly kmaHourly e.ts <|> dictGetHourly omHourly e.ts) = some e := by
      intro e he
      rw [hout] at he
      obtain ⟨t, ht, hsome⟩ := List.mem_filterMap.mp he
      have hts := hourlyChoice_props hsome
      rw [← hts] at ht hsome
      exact ⟨ht, hsome⟩
    refine ⟨?_, fun e he => (hmem_out e he).2, ?_⟩
    · rw [hout, List.pairwise_filterMap]
      refine ((hlt.sublist (List.takeWhile_sublist _)).imp ?_)
      intro a b hab x hx y hy
      rw [hourlyChoice_props hx, hourlyChoice_props hy]
      exact hab
    · intro _
      have htss_ne : tss ≠ [] := by
        intro hnil
        have hlen := hperm.length_eq
        rw [hnil] at hlen
        have hknil : keys = [] := List.eq_nil_of_length_eq_zero hlen.symm
        rw [hknil] at hk
        exact hk rfl
      refine ⟨tss.headD 0, ?_, ?_, ?_⟩
      · rw [← hmem_tss]
        rcases hcase : tss with _ | ⟨a, r⟩
        · exact absurd hcase htss_ne
        · exact List.mem_cons_self a r
      · intro t ht
        exact headD_le_of_sorted hsorted t ((hmem_tss t).mpr ht)
      · intro e he
        obtain ⟨htw, _⟩ := hmem_out e he
        constructor
        · exact headD_le_of_sorted hsorted e.ts
            ((List.takeWhile_sublist _).subset htw)
        · have := List.mem_takeWhile_imp htw
          exact of_decide_eq_true this

/-- Claim C4 witness: the hourly merge properties applied to concrete inputs
(KMA at seconds 0 and 3600, open-meteo at 3600 and 400000 — the latter beyond
the 72-hour cutoff), with the nonemptiness hypothesis discharged. -/
theorem mergeHourly_spec_witness :
    List.Pairwise (fun a b => a.ts < b.ts)
      (mergeHourly [{ ts := 0 }, { ts := 3600 }] [{ ts := 3600 }, { ts := 400000 }]) ∧
    (∃ t0 ∈ [({ ts := 0 } : ClimateHourly), { ts := 3600 }].map (·.ts)
        ++ [({ ts := 3600 } : ClimateHourly), { ts := 400000 }].map (·.ts),
      (∀ t ∈ [({ ts := 0 } : ClimateHourly), { ts := 3600 }].map (·.ts)
          ++ [({ ts := 3600 } : ClimateHourly), { ts := 400000 }].map (·.ts), t0 ≤ t) ∧
      ∀ e ∈ mergeHourly [{ ts := 0 }, { ts := 3600 }] [{ ts := 3600 }, { ts := 400000 }],
        t0 ≤ e.ts ∧ e.ts < t0 + 72 * 3600) := by
  have h := mergeHourly_spec [{ ts := 0 }, { ts := 3600 }] [{ ts := 3600 }, { ts := 400000 }]
  exact ⟨h.1, h.2.2 (by decide)⟩

theorem leadRun_le_maxRunSpec (l : List ClimateDaily) : leadRun l ≤ maxRunSpec l := by
  cases l with
  | nil => exact le_refl 0
  | cons e t => exact le_max_left _ _

theorem foldl_rainRunStep (l : List ClimateDaily) :
    ∀ r b : Nat, (l.foldl rainRunStep (r, b)).2 = max b (maxCont r l) := by
  induction l with
  | nil =>
    intro r b
    simp [maxCont]
  | cons e t ih =>
    intro r b
    rw [List.foldl_cons]
    by_cases hq : rainQual e
    · rw [show rainRunStep (r, b) e = (r + 1, max b (r + 1)) from by simp [rainRunStep, hq]]
      rw [ih]
      rw [show maxCont r (e :: t) = max (r + 1) (maxCont (r + 1) t) from by simp [maxCont, hq]]
      omega
    · rw [show rainRunStep (r, b) e = (0, b) from by simp [rainRunStep, hq]]
      rw [ih]
      rw [show maxCont r (e :: t) = maxCont 0 t from by simp [maxCont, hq]]

theorem maxCont_eq (l : List ClimateDaily) :
    ∀ r : Nat, maxCont r l =
      max (if leadRun l = 0 then 0 else r + leadRun l) (maxRunSpec l) := by
  induction l with
  | nil =>
    intro r
    simp [maxCont, leadRun, maxRunSpec]
  | cons e t ih =>
    intro r
    by_cases hq : rainQual e
    · have hlead : leadRun (e :: t) = leadRun t + 1 := by
        simp [leadRun, List.takeWhile_cons, hq]
      rw [show maxCont r (e :: t) = max (r + 1) (maxCont (r + 1) t) from by simp [maxCont, hq]]
      rw [ih]
      rw [show maxRunSpec (e :: t) = max (leadRun (e :: t)) (maxRunSpec t) from rfl]
      rw [hlead]
      by_cases hl : leadRun t = 0
      · simp only [hl]
        simp
        omega
      · simp only [hl]
        simp [hl]
        omega
    · have hlead : leadRun (e :: t) = 0 := by
        simp [leadRun, List.takeWhile_cons, hq]
      rw [show maxCont r (e :: t) = maxCont 0 t from by simp [maxCont, hq]]
      rw [ih]
      rw [show maxRunSpec (e :: t) = max (leadRun (e :: t)) (maxRunSpec t) from rfl]
      rw [hlead]
      have hle := leadRun_le_maxRunSpec t
      by_cases hl : leadRun t = 0
      · simp [hl]
      · simp [hl]
        omega

theorem maxRunSpec_eq_maxCont (l : List ClimateDaily) : maxRunSpec l = maxCont 0 l := by
  rw [maxCont_eq]
  have hle := leadRun_le_maxRunSpec l
  by_cases hl : leadRun l = 0
  · simp [hl]
  · simp [hl]
    omega

/-- Claim C10: rain_run_max_days returns the length of the longest run of
consecutive daily entries whose precip_mm is present and greater than 0
(characterized by maxRunSpec, the maximum over all suffixes of the length of
the qualifying prefix), and returns None — never 0 — exactly when no entry
qualifies (in particular on the empty list). -/
theorem rainRunMaxDays_spec (l : List ClimateDaily) :
    rainRunMaxDays l = (if maxRunSpec l = 0 then none else some (maxRunSpec l)) ∧
    (maxRunSpec l = 0 ↔ ∀ e ∈ l, rainQual e = false) := by
  constructor
  · have hfold := foldl_rainRunStep l 0 0
    have hmc := maxRunSpec_eq_maxCont l
    simp only [rainRunMaxDays]
    rw [hfold]
    have hmax : max 0 (maxCont 0 l) = maxCont 0 l := by omega
    rw [hmax, ← hmc]
  · induction l with
    | nil => simp [maxRunSpec]
    | cons e t ih =>
      constructor
      · intro h0
        have hz := Nat.max_eq_zero_iff.mp h0
        intro x hx
        rcases List.mem_cons.mp hx with rfl | hxt
        · by_contra hq
          have hqt : rainQual x = true := Bool.of_not_eq_false hq
          have : leadRun (x :: t) = leadRun t + 1 := by
            simp [leadRun, List.takeWhile_cons, hqt]
          omega
        · exact (ih.mp hz.2) x hxt
      · intro hall
        have hq : rainQual e = false := hall e (List.mem_cons_self e t)
        have hlead : leadRun (e :: t) = 0 := by
          simp [leadRun, List.takeWhile_cons, hq]
        have ht : maxRunSpec t = 0 := ih.mpr (fun x hx => hall x (List.mem_cons_of_mem e hx))
        simp [maxRunSpec, hlead, ht]

/-- Claim C10 witness: the characterization applied to a concrete daily list
with a longest rain run of 2 consecutive days. -/
theorem rainRunMaxDays_spec_witness :
    rainRunMaxDays
      [{ date := 0, precip_mm := some 1 }, { date := 1, precip_mm := some 2 },
        { date := 2, precip_mm := some 0 }, { date := 3, precip_mm := some 5 }] = some 2 ∧
    rainRunMaxDays [{ date := 0, precip_mm := some 0 }, { date := 1 }] = none := by
  constructor
  · have h := rainRunMaxDays_spec
      [{ date := 0, precip_mm := some 1 }, { date := 1, precip_mm := some 2 },
        { date := 2, precip_mm := some 0 }, { date := 3, precip_mm := some 5 }]
    rw [h.1]
    decide
  · have h := rainRunMaxDays_spec [{ date := 0, precip_mm := some 0 }, { date := 1 }]
    rw [h.1]
    decide

/-- Claim C7 counterexample: zero readings are NOT filtered at the
normalization stage.  The scripted demo NPMS payload carries an observation
with value 0.0 (갈색무늬병, code SS0101), and _normalize_npms surfaces it
unchanged into the pest section. -/
theorem normalizeNpms_demo_zero_surfaces :
    (normalizeNpms (some andongBundle.npms) demoProfile 0).observations.any
      (fun o => o.value == some 0) = true := by
  decide

theorem parseNpmsObservationEntry_value {targets : List String} {targetName : String}
    {e : RawNpmsStructEntry} {oe : RawObservationEntry}
    (h : parseNpmsObservationEntry targets targetName e = some oe) :
    ∃ v : Rat, oe.value = .num v ∧ v ≠ 0 := by
  unfold parseNpmsObservationEntry at h
  split at h
  · exact absurd h (by simp)
  · split at h
    · exact absurd h (by simp)
    · next v hv =>
      split at h
      · exact absurd h (by simp)
      · next hz =>
        have hrec := Option.some.inj h
        refine ⟨v, ?_, ?_⟩
        · rw [← hrec]
        · intro hv0
          apply hz
          rw [hv0]
          exact beq_self_eq_true 0

/-- Claim C7 amended: zero-filtering happens in the live NPMS fetcher's parse
step, not at normalization.  Every observation emitted by
_parse_npms_observations has a present, nonzero value, and this property
survives _normalize_npms into the pest section (value is neither None nor 0);
by the counterexample above, payloads that bypass the fetcher (the demo
bundle) are not filtered, so a zero observation there reaches the pack. -/
theorem npms_parse_zero_filtered (entries : List RawNpmsStructEntry)
    (regionCode targetName : String) (now : Int) (parsed : NpmsParsedPayload)
    (profile : AggregateProfile) (today : Int)
    (h : parseNpmsObservations entries regionCode targetName now = some parsed) :
    ∀ o ∈ (normalizeNpms (some (npmsPayloadOfParsed parsed)) profile today).observations,
      o.value ≠ none ∧ o.value ≠ some 0 := by
  intro o ho
  have hobs : parsed.observations = entries.filterMap
      (parseNpmsObservationEntry (regionCodeVariants regionCode) targetName) := by
    unfold parseNpmsObservations at h
    split at h
    · cases h
    · split at h
      · cases h
      · cases h
        rfl
  have ho2 : o ∈ parsed.observations.map (fun e =>
      ({ pest := e.pest.getD "", metric := e.metric.getD "",
         code := e.code.getD "", value := coerceFloat e.value,
         area := e.area.getD "", unit := e.unit } : PestObservation)) := ho
  obtain ⟨oe, hoe, rfl⟩ := List.mem_map.mp ho2
  rw [hobs] at hoe
  obtain ⟨entry, _, hsome⟩ := List.mem_filterMap.mp hoe
  obtain ⟨v, hval, hv0⟩ := parseNpmsObservationEntry_value hsome
  constructor
  · show coerceFloat oe.value ≠ none
    rw [hval]
    simp [coerceFloat]
  · show coerceFloat oe.value ≠ some 0
    rw [hval]
    simpa [coerceFloat] using hv0

/-- Claim C7 witness: the parse-stage filter applied to a concrete SVC53
entry with value 5 for the target region; the normalized observation's value
is present and nonzero. -/
theorem npms_parse_zero_filtered_witness :
    ({ pest := "복숭아순나방", metric := "트랩당마리수", code := "SS0127",
       value := some 5, area := "안동시", unit := none } : PestObservation).value ≠ none ∧
    ({ pest := "복숭아순나방", metric := "트랩당마리수", code := "SS0127",
       value := some 5, area := "안동시", unit := none } : PestObservation).value ≠ some 0 := by
  have h := npms_parse_zero_filtered
    [ { sigunguCode := some "47170", sigunguNm := some "안동시",
        dbyhsNm := some "복숭아순나방(트랩당마리수)", inqireValue := .num 5,
        inqireCnClCode := some "SS0127" } ]
    "47170" "안동시" 0
    { issued_at := 0,
      observations :=
        [ { pest := some "복숭아순나방", metric := some "트랩당마리수",
            code := some "SS0127", value := .num 5, area := some "안동시", unit := none } ],
      provenance := "NPMS-SVC53(0)" }
    demoProfile 0 (by rfl)
  exact h { pest := "복숭아순나방", metric := "트랩당마리수", code := "SS0127",
            value := some 5, area := "안동시", unit := none } (by decide)

/-- Claim C8: no-coverage resolution failure.  For every request whose
(region lowercased, crop) key is absent from the resolver table, resolve
returns the no-coverage ValueError; the aggregate call surfaces exactly that
error, and its outcome is independent of the fetch results, the environment
and the clock — so the request fails before any fetched data could matter,
and no coordinates are silently defaulted. -/
theorem resolve_no_coverage (payload : AggregateRequest)
    (fetched fetched2 : FetchResults) (env env2 : EnvConfig)
    (now now2 today today2 : Int)
    (h : lookupResolverRecord payload.region.toLower (cropStr payload.crop) = none) :
    resolve (profileOfRequest payload) =
      .error ("Unsupported region/crop combination: " ++ payload.region ++ " / "
        ++ cropStr payload.crop) ∧
    aggregate payload fetched env now today =
      .error (.valueError ("Unsupported region/crop combination: " ++ payload.region ++ " / "
        ++ cropStr payload.crop)) ∧
    aggregate payload fetched env now today = aggregate payload fetched2 env2 now2 today2 := by
  have hres : resolve (profileOfRequest payload) =
      .error ("Unsupported region/crop combination: " ++ payload.region ++ " / "
        ++ cropStr payload.crop) := by
    unfold resolve
    rw [show (profileOfRequest payload).region = payload.region from rfl,
      show (profileOfRequest payload).crop = payload.crop from rfl, h]
  refine ⟨hres, ?_, ?_⟩
  · simp only [aggregate, hres]
  · simp only [aggregate, hres]

/-- Claim C8 witness: a profile for an uncovered region fails resolution with
the no-coverage error, via the theorem at a concrete request. -/
theorem resolve_no_coverage_witness :
    resolve (profileOfRequest
      { region := "Nonexistent-City", crop := .apple, stage := "flowering" }) =
      .error "Unsupported region/crop combination: Nonexistent-City / apple" := by
  have h := resolve_no_coverage
    { region := "Nonexistent-City", crop := .apple, stage := "flowering" }
    {} { kma := some {} } {} { npms_target_sigungu_code := some "4717" } 0 1 2 3
    (by rfl)
  exact h.1

theorem lookupResolverRecord_apple (region : String) :
    lookupResolverRecord region "apple" = none := by
  unfold lookupResolverRecord resolverRecords
  simp [List.find?]

/-- Claim C9: the resolver table cannot cover any constructible profile.  The
profile model restricts crop to the literal "apple", while every key of the
resolver table carries a different crop (tomato, rice, lettuce); hence
resolve fails with the unsupported-combination error for every profile, and
aggregate — which resolves first on both the demo and the live path —
returns that error for every request, whatever the fetch results, environment
and clock. -/
theorem resolve_always_fails :
    (∀ p : AggregateProfile,
      resolve p = .error ("Unsupported region/crop combination: " ++ p.region ++ " / "
        ++ cropStr p.crop)) ∧
    (∀ (payload : AggregateRequest) (fetched : FetchResults) (env : EnvConfig)
        (now today : Int),
      aggregate payload fetched env now today =
        .error (.valueError ("Unsupported region/crop combination: " ++ payload.region
          ++ " / " ++ cropStr payload.crop))) := by
  have hres : ∀ p : AggregateProfile,
      resolve p = .error ("Unsupported region/crop combination: " ++ p.region ++ " / "
        ++ cropStr p.crop) := by
    intro p
    obtain ⟨region, crop, stage⟩ := p
    cases crop
    unfold resolve
    rw [show cropStr Crop.apple = "apple" from rfl, lookupResolverRecord_apple]
  refine ⟨hres, ?_⟩
  intro payload fetched env now today
  simp only [aggregate, hres (profileOfRequest payload)]
  rfl

/-- Claim C9 witness: the universal failure evaluated at a concrete profile
and request, demo mode included. -/
theorem resolve_always_fails_witness :
    resolve { region := "Andong-si", crop := .apple, stage := "flowering" } =
      .error "Unsupported region/crop combination: Andong-si / apple" ∧
    aggregate { region := "Andong-si", crop := .apple, stage := "flowering", demo := true }
        {} {} 0 0 =
      .error (.valueError "Unsupported region/crop combination: Andong-si / apple") := by
  exact ⟨resolve_always_fails.1 { region := "Andong-si", crop := .apple, stage := "flowering" },
    resolve_always_fails.2
      { region := "Andong-si", crop := .apple, stage := "flowering", demo := true } {} {} 0 0⟩

/-- Claim C6 counterexample: with every weather fetch failed (both results
None), aggregate does NOT raise a service-unavailable (RuntimeError / 5xx)
error: at this concrete request it raises the no-coverage ValueError from
resolution (mapped to 400 by the route), and the aggregate body contains no
raise at all for total weather failure. -/
theorem aggregate_weather_failure_counterexample :
    aggregate { region := "Andong-si", crop := .apple, stage := "flowering", demo := false }
        { kma := none, open_meteo := none, npms := none } {} 0 0 =
      .error (.valueError "Unsupported region/crop combination: Andong-si / apple") := by
  rfl

/-- Claim C6 amended: aggregate never raises a service-unavailable
(RuntimeError) error for any input; its only raises are ValueErrors (the
no-coverage resolution failure and the missing demo bundle).  Total weather
failure is absorbed: past resolution, the pipeline applied to two absent
weather payloads returns a pack whose climate daily and hourly lists are
empty instead of raising. -/
theorem aggregate_absorbs_weather_failure (payload : AggregateRequest)
    (fetched : FetchResults) (env : EnvConfig) (now today : Int) :
    (∀ msg, aggregate payload fetched env now today ≠
      Except.error (AggError.runtimeError msg)) ∧
    (∀ (profile : AggregateProfile) (npmsRaw : Option RawNpmsPayload) (rc : Option String),
      (aggregatePipeline profile none none npmsRaw rc env now today).climate.daily = [] ∧
      (aggregatePipeline profile none none npmsRaw rc env now today).climate.hourly = []) := by
  constructor
  · intro msg
    unfold aggregate
    cases hres : resolve (profileOfRequest payload) with
    | error m =>
      simp [hres]
    | ok resolved =>
      simp only [hres]
      by_cases hdemo : payload.demo
      · simp only [hdemo, if_true]
        cases hb : getDemoBundle (profileOfRequest payload).region
            (cropStr (profileOfRequest payload).crop) with
        | none => simp [hb]
        | some bundle => simp [hb]
      · simp [hdemo]
  · intro profile npmsRaw rc
    exact ⟨rfl, rfl⟩

/-- Claim C6 witness: the amended statement applied at a concrete request and
a concrete pipeline input with both weather sources absent. -/
theorem aggregate_absorbs_weather_failure_witness :
    aggregate { region := "Jeju-si", crop := .apple, stage := "ripening", demo := false }
        { kma := none, open_meteo := none, npms := none } {} 5 5 ≠
      Except.error (AggError.runtimeError "upstream unavailable") ∧
    (aggregatePipeline demoProfile none none none none {} 0 0).climate.daily = [] := by
  have h := aggregate_absorbs_weather_failure
    { region := "Jeju-si", crop := .apple, stage := "ripening", demo := false }
    { kma := none, open_meteo := none, npms := none } {} 5 5
  exact ⟨h.1 "upstream unavailable", (h.2 demoProfile none none).1⟩

/-- Claim C5: total weather failure with a surviving pest observation.  The
claim (and the repository's own tests) expect the aggregate call to succeed
with empty daily/hourly and one advisory pest hint; the code instead raises
the no-coverage ValueError at resolution for this — and every — request,
because the resolver table has no "apple" entry while the profile model only
admits crop "apple" (first conjunct).  Past resolution the pipeline does
behave as the claim describes: empty daily and hourly, the observation kept,
and exactly one advisory hint naming the area and the value (remaining
conjuncts). -/
theorem aggregate_weather_failure_pest_only :
    aggregate { region := "Andong-si", crop := .apple, stage := "flowering", demo := false }
        { kma := none, open_meteo := none, npms := some scenarioNpms } {} 0 0 =
      .error (.valueError "Unsupported region/crop combination: Andong-si / apple") ∧
    (aggregatePipeline demoProfile none none (some scenarioNpms) (some "47170") {} 0 0).climate.daily
      = [] ∧
    (aggregatePipeline demoProfile none none (some scenarioNpms) (some "47170") {} 0 0).climate.hourly
      = [] ∧
    (aggregatePipeline demoProfile none none (some scenarioNpms) (some "47170") {} 0 0).pest.observations
      = [{ pest := "복숭아순나방", metric := "트랩당마리수", code := "SS0127"
           value := some 11, area := "안동시", unit := none }] ∧
    (aggregatePipeline demoProfile none none (some scenarioNpms) (some "47170") {} 0 0).pest_hints
      = ["안동시 복숭아순나방(트랩당마리수) 11마리 관측 — 10마리 이상으로 높음. 살충제 방제 검토를 권장합니다 (출처: NPMS SVC53)."] := by
  refine ⟨rfl, rfl, rfl, rfl, ?_⟩
  decide
